import Mathlib

/-!
Shallow embedding of the qrcode_mcp generation engine
(src/src/qrcode_mcp/generator.py).

Pure helpers (color parsing, key lookup, message formatting, the
transparency pixel transform, the logo clamp and resize geometry) are
translated directly from the source.  Calls into external libraries
(the qrcode encoder, PIL image operations, the filesystem) are modelled
as an explicit trace of effects plus oracle parameters carrying the
values those external calls return (file-existence checks, the loaded
logo size, the rendered canvas size, the rendered pixel grid).
Machine floats appearing in the source (the logo size ratio and its
clamp bounds 0.1 and 0.4) are modelled as rationals; the operations
performed on them (max, min, comparison, one multiplication then
truncation) are exact on these values.
-/

/-- Whitespace as recognized by CPython for both str.strip() with no
argument and the leading/trailing skip of int(): the Py_UNICODE_ISSPACE
set, namely tab through carriage return (9-13), the separator controls
28-31, space (32), next line (0x85), no-break space (0xA0), ogham space
mark (0x1680), the en-quad through hair-space range (0x2000-0x200A),
line and paragraph separators (0x2028, 0x2029), narrow no-break space
(0x202F), medium mathematical space (0x205F) and ideographic space
(0x3000). -/
def isPyWs (c : Char) : Bool :=
  decide ((9 ≤ c.toNat ∧ c.toNat ≤ 13) ∨ (28 ≤ c.toNat ∧ c.toNat ≤ 32) ∨
    c.toNat = 0x85 ∨ c.toNat = 0xA0 ∨ c.toNat = 0x1680 ∨
    (0x2000 ≤ c.toNat ∧ c.toNat ≤ 0x200A) ∨ c.toNat = 0x2028 ∨
    c.toNat = 0x2029 ∨ c.toNat = 0x202F ∨ c.toNat = 0x205F ∨
    c.toNat = 0x3000)

/-- Python str.strip() with no argument: drop leading and trailing
whitespace. -/
def pyStripWs (l : List Char) : List Char :=
  ((l.dropWhile isPyWs).reverse.dropWhile isPyWs).reverse

/-- Value of a hexadecimal digit character (0-9, a-f, A-F), as accepted
by Python int(-, 16). -/
def hexDigitVal (c : Char) : Option Nat :=
  if 48 ≤ c.toNat ∧ c.toNat ≤ 57 then some (c.toNat - 48)
  else if 97 ≤ c.toNat ∧ c.toNat ≤ 102 then some (c.toNat - 87)
  else if 65 ≤ c.toNat ∧ c.toNat ≤ 70 then some (c.toNat - 55)
  else none

/-- Continuation of Python int(-, 16) digit parsing: digits with single
underscores allowed between digits (codepoint 95 is the underscore). -/
def hexTail (acc : Nat) : List Char → Option Nat
  | [] => some acc
  | c :: rest =>
    if c.toNat = 95 then
      match rest with
      | [] => none
      | d :: rest2 => (hexDigitVal d).bind (fun v => hexTail (16 * acc + v) rest2)
    else (hexDigitVal c).bind (fun v => hexTail (16 * acc + v) rest)

/-- A nonempty run of hex digits (with embedded underscores), as in
Python int(-, 16) after sign and prefix handling. -/
def hexBody : List Char → Option Nat
  | [] => none
  | c :: rest => (hexDigitVal c).bind (fun d => hexTail d rest)

/-- After a 0x / 0X base marker Python allows one optional underscore
before the digits. -/
def dropMarkUnderscore : List Char → List Char
  | [] => []
  | e :: rest2 => if e.toNat = 95 then rest2 else e :: rest2

/-- Python int(-, 16) after the optional sign: an optional 0x / 0X base
marker (codepoints 48, 120, 88), then digits. -/
def hexAfterSign (l : List Char) : Option Nat :=
  match l with
  | c :: d :: rest =>
    if c.toNat = 48 ∧ (d.toNat = 120 ∨ d.toNat = 88) then
      hexBody (dropMarkUnderscore rest)
    else hexBody (c :: d :: rest)
  | l => hexBody l

/-- Sign handling of Python int(-, 16) on the already-stripped list:
optional sign (+ is codepoint 43, - is 45), then marker and digits. -/
def pyIntHexCore : List Char → Option Int
  | [] => none
  | c :: rest =>
    if c.toNat = 43 then (hexAfterSign rest).map (fun n => (n : Int))
    else if c.toNat = 45 then (hexAfterSign rest).map (fun n => -(n : Int))
    else (hexAfterSign (c :: rest)).map (fun n => (n : Int))

/-- Python int(s, 16) on a character list: strip whitespace, optional
sign, optional 0x marker, hex digits.  Returns none where Python raises
ValueError. -/
def pyIntHex (l : List Char) : Option Int :=
  pyIntHexCore (pyStripWs l)

/-- Python errors surfaced by the generator: ValueError and
FileNotFoundError, carrying their message. -/
inductive PyError where
  | valueError (msg : String)
  | fileNotFound (msg : String)
deriving DecidableEq, Repr

deriving instance DecidableEq for Except

/-- The color string after color.strip().lstrip("#") in _parse_color:
whitespace stripped from both ends, then every leading "#" (codepoint
35) removed. -/
def strippedColor (color : String) : List Char :=
  (pyStripWs color.data).dropWhile (fun c => c.toNat == 35)

/-- The 3-digit shorthand expansion in _parse_color: each character is
doubled ("".join(c * 2 for c in color)). -/
def expandShort (l : List Char) : List Char :=
  (l.map (fun c => [c, c])).flatten

/-- The digit list _parse_color actually decodes: the stripped string,
expanded when its length is 3. -/
def colorDigits (color : String) : List Char :=
  let cs := strippedColor color
  if cs.length = 3 then expandShort cs else cs

/-- _parse_color (generator.py lines 145-152): parse a hex color string
into an (R, G, B) tuple by decoding the three consecutive 2-character
slices with int(-, 16).  The length check raises its own ValueError;
a slice int(-, 16) failure propagates as a ValueError too. -/
def parseColorE (color : String) : Except PyError (Int × Int × Int) :=
  let cs := colorDigits color
  if cs.length ≠ 6 then
    .error (.valueError ("Invalid color: \x27#" ++ String.mk cs ++
      "\x27. Use hex format like #FF0000 or #F00."))
  else
    match pyIntHex (cs.take 2) with
    | none => .error (.valueError ("invalid literal for int() with base 16: \x27" ++
        String.mk (cs.take 2) ++ "\x27"))
    | some r =>
      match pyIntHex ((cs.drop 2).take 2) with
      | none => .error (.valueError ("invalid literal for int() with base 16: \x27" ++
          String.mk ((cs.drop 2).take 2) ++ "\x27"))
      | some g =>
        match pyIntHex (cs.drop 4) with
        | none => .error (.valueError ("invalid literal for int() with base 16: \x27" ++
            String.mk (cs.drop 4) ++ "\x27"))
        | some b => .ok (r, g, b)

/-- Python str.upper on ASCII letters (the error-correction keys and the
style keys used by the generator are ASCII). -/
def pyUpperChar (c : Char) : Char :=
  if 97 ≤ c.toNat ∧ c.toNat ≤ 122 then Char.ofNat (c.toNat - 32) else c

/-- Python str.upper. -/
def pyUpper (s : String) : String := String.mk (s.data.map pyUpperChar)

/-- Python str.lower on ASCII letters. -/
def pyLowerChar (c : Char) : Char :=
  if 65 ≤ c.toNat ∧ c.toNat ≤ 90 then Char.ofNat (c.toNat + 32) else c

/-- Python str.lower. -/
def pyLower (s : String) : String := String.mk (s.data.map pyLowerChar)

/-- qrcode.constants.ERROR_CORRECT_M. -/
def ERROR_CORRECT_M : Nat := 0
/-- qrcode.constants.ERROR_CORRECT_L. -/
def ERROR_CORRECT_L : Nat := 1
/-- qrcode.constants.ERROR_CORRECT_H. -/
def ERROR_CORRECT_H : Nat := 2
/-- qrcode.constants.ERROR_CORRECT_Q. -/
def ERROR_CORRECT_Q : Nat := 3

/-- ERROR_CORRECTION_LEVELS (generator.py lines 68-73), in insertion
order. -/
def ERROR_CORRECTION_LEVELS : List (String × Nat) :=
  [("L", ERROR_CORRECT_L), ("M", ERROR_CORRECT_M),
   ("Q", ERROR_CORRECT_Q), ("H", ERROR_CORRECT_H)]

/-- Dictionary lookup ERROR_CORRECTION_LEVELS.get(k). -/
def lookupEC (k : String) : Option Nat :=
  (ERROR_CORRECTION_LEVELS.find? (fun p => p.1 == k)).map (fun p => p.2)

/-- ERROR_CORRECTION_LEVELS.get(error_correction.upper(), ERROR_CORRECT_H)
as performed by every generation operation except generate_with_logo. -/
def ecOf (errorCorrection : String) : Nat :=
  (lookupEC (pyUpper errorCorrection)).getD ERROR_CORRECT_H

/-- The module drawer classes of the qrcode styledpil backend, as values
of MODULE_SHAPES. -/
inductive ModuleDrawer where
  | square | gapped | circle | rounded | verticalBars | horizontalBars
deriving DecidableEq, Repr

/-- MODULE_SHAPES (generator.py lines 75-82), in insertion order. -/
def MODULE_SHAPES : List (String × ModuleDrawer) :=
  [("square", .square), ("gapped", .gapped), ("circle", .circle),
   ("rounded", .rounded), ("vertical_bars", .verticalBars),
   ("horizontal_bars", .horizontalBars)]

/-- The keys of MODULE_SHAPES, in dictionary (insertion) order, as
joined into error messages. -/
def MODULE_SHAPE_KEYS : List String := MODULE_SHAPES.map (fun p => p.1)

/-- Dictionary membership / lookup on MODULE_SHAPES. -/
def lookupShape (k : String) : Option ModuleDrawer :=
  (MODULE_SHAPES.find? (fun p => p.1 == k)).map (fun p => p.2)

/-- The color mask classes of the qrcode styledpil backend, as values of
GRADIENT_STYLES. -/
inductive GradKind where
  | solid | radial | squareGrad | horizontal | vertical
deriving DecidableEq, Repr

/-- GRADIENT_STYLES (generator.py lines 84-90), in insertion order. -/
def GRADIENT_STYLES : List (String × GradKind) :=
  [("solid", .solid), ("radial", .radial), ("square", .squareGrad),
   ("horizontal", .horizontal), ("vertical", .vertical)]

/-- The keys of GRADIENT_STYLES in dictionary order. -/
def GRADIENT_STYLE_KEYS : List String := GRADIENT_STYLES.map (fun p => p.1)

/-- Dictionary membership / lookup on GRADIENT_STYLES. -/
def lookupGradient (k : String) : Option GradKind :=
  (GRADIENT_STYLES.find? (fun p => p.1 == k)).map (fun p => p.2)

/-- The local set valid_gradients of generate_gradient (line 695).  It
is a Python set literal; iteration order of a string set is unspecified
in Python, so the joined order below is one possible order.  Every
property proved about the resulting message (containment of each key)
is order-invariant. -/
def VALID_GRADIENTS4 : List String := ["radial", "square", "horizontal", "vertical"]

/-- The ValueError message for an unknown module_shape (lines 294-297,
404-407, 519-522, 596-599, 688-691; identical at each site). -/
def unknownShapeMsg (moduleShape : String) : String :=
  "Unknown module_shape \x27" ++ moduleShape ++ "\x27. Choose from: " ++
    String.intercalate ", " MODULE_SHAPE_KEYS

/-- The ValueError message for an unknown gradient_style in
generate_styled (lines 303-306). -/
def unknownGradMsg (gradientStyle : String) : String :=
  "Unknown gradient_style \x27" ++ gradientStyle ++ "\x27. Choose from: " ++
    String.intercalate ", " GRADIENT_STYLE_KEYS

/-- The ValueError message for an unknown gradient_style in
generate_gradient (lines 697-700), joining the 4-element set. -/
def unknownGrad4Msg (gradientStyle : String) : String :=
  "Unknown gradient_style \x27" ++ gradientStyle ++ "\x27. Choose from: " ++
    String.intercalate ", " VALID_GRADIENTS4

/-- A color mask value as constructed by the generator (solid fill,
the four gradient kinds with their color arguments, or the image
sampled mask). -/
inductive ColorMask where
  | solidFill (back front : Int × Int × Int)
  | radialGrad (back center edge : Int × Int × Int)
  | squareGrad (back center edge : Int × Int × Int)
  | horizontalGrad (back left right : Int × Int × Int)
  | verticalGrad (back top bottom : Int × Int × Int)
  | imageMask (back : Int × Int × Int) (path : String)
deriving DecidableEq, Repr

/-- The observable trace of external calls each generation operation
makes, in order: directory creation (Path.mkdir with parents=True,
exist_ok=True), QR encoding (qrcode.QRCode + make with the given
error-correction level, box size and border), styled rendering
(make_image with a module drawer and color mask), the logo resize
(PIL thumbnail result size), and the file write.  For
generate_transparent the written pixel grid (RGBA rows) is recorded. -/
inductive Effect where
  | mkdirP (dir : String)
  | encode (data : String) (ec : Nat) (boxSize border : Nat)
  | render (drawer : ModuleDrawer) (mask : ColorMask)
  | resize (w h : Nat)
  | writeFile (path : String)
  | writeImg (path : String) (img : List (List (Nat × Nat × Nat × Nat)))
deriving DecidableEq, Repr

/-- Boolean success test on Except, for stating that a call did or did
not raise. -/
def exceptIsOk {ε α : Type} : Except ε α → Bool
  | .ok _ => true
  | .error _ => false

/-- data[:200] truncation used in every result record. -/
def pyTake (n : Nat) (s : String) : String := String.mk (s.data.take n)

/-- Python x or y for an optional string argument: y when x is None or
the empty string (the two falsy string cases). -/
def pyOrStr (x : Option String) (y : String) : String :=
  match x with
  | none => y
  | some s => if s = "" then y else s

/-- Result dict of generate_basic (lines 241-251). -/
structure BasicResult where
  saved_path : String
  data : String
  style : String
  fg_color : String
  bg_color : String
  size : Nat
  border : Nat
  error_correction : String
  format : String
deriving DecidableEq, Repr

/-- Result dict of generate_styled (lines 345-357). -/
structure StyledResult where
  saved_path : String
  data : String
  style : String
  module_shape : String
  gradient_style : String
  fg_color : String
  bg_color : String
  size : Nat
  border : Nat
  error_correction : String
  format : String
deriving DecidableEq, Repr

/-- Result dict of generate_with_logo (lines 465-478).  The clamped
logo_size_ratio is a float in the source, modelled as a rational. -/
structure LogoResult where
  saved_path : String
  data : String
  style : String
  logo_path : String
  logo_size_ratio : ℚ
  module_shape : String
  fg_color : String
  bg_color : String
  size : Nat
  border : Nat
  error_correction : String
  format : String
deriving DecidableEq, Repr

/-- Result dict of generate_with_background_image (lines 553-563). -/
structure BgImageResult where
  saved_path : String
  data : String
  style : String
  image_path : String
  module_shape : String
  size : Nat
  border : Nat
  error_correction : String
  format : String
deriving DecidableEq, Repr

/-- Result dict of generate_transparent (lines 638-648). -/
structure TransparentResult where
  saved_path : String
  data : String
  style : String
  fg_color : String
  module_shape : String
  size : Nat
  border : Nat
  error_correction : String
  format : String
deriving DecidableEq, Repr

/-- Result dict of generate_gradient (lines 733-746). -/
structure GradientResult where
  saved_path : String
  data : String
  style : String
  gradient_style : String
  center_color : String
  edge_color : String
  bg_color : String
  module_shape : String
  size : Nat
  border : Nat
  error_correction : String
  format : String
deriving DecidableEq, Repr

/-- Save path resolution (explicit filename or _unique_filename): the
unique name is prefix_stamp.ext where stamp is an md5-of-timestamp
token; the token is an oracle parameter of each operation. -/
def savePathOf (outputDir : String) (filename : Option String)
    (uniquePfx stamp ext : String) : String :=
  match filename with
  | some f => outputDir ++ "/" ++ f ++ "." ++ ext
  | none => outputDir ++ "/" ++ uniquePfx ++ "_" ++ stamp ++ "." ++ ext

/-- The clamp logo_size_ratio = max(0.1, min(0.4, logo_size_ratio))
(line 410).  The float literals 0.1 and 0.4 are modelled by the
rationals they denote; max and min on floats return one of their
arguments, so the clamp is exact. -/
def clampRatio (r : ℚ) : ℚ := max (1/10) (min (2/5) r)

/-- logo_max = int(qr_width * logo_size_ratio) (line 430).  Both factors
are nonnegative here, so Python int() truncation is the floor. -/
def logoMax (qrWidth : Nat) (ratio : ℚ) : Nat :=
  (⌊(qrWidth : ℚ) * ratio⌋).toNat

/-- PIL round_aspect helper inside Image.thumbnail: of floor and ceil
of the ideal length, choose the one minimizing the given aspect error
(floor on ties, as Python min takes the first argument), but at least
1.  Modelled from the PIL (external library) source of thumbnail. -/
def roundAspect (q : ℚ) (err : Int → ℚ) : Int :=
  max (if err ⌊q⌋ ≤ err ⌈q⌉ then ⌊q⌋ else ⌈q⌉) 1

/-- PIL Image.thumbnail((box, box)) size computation on a w x h image
(external library, modelled from its source): if the image already fits
in the box nothing happens; otherwise the constraining side is set to
the box and the other side is scaled by the aspect ratio with
round_aspect.  PIL computes the aspect with float division; the model
uses exact rational division, which agrees on the controlling
(longest) side. -/
def thumbnailSize (w h box : Nat) : Nat × Nat :=
  if box ≥ w ∧ box ≥ h then (w, h)
  else if (1 : ℚ) ≥ (w : ℚ) / (h : ℚ) then
    ((roundAspect ((box : ℚ) * ((w : ℚ) / (h : ℚ)))
        (fun n => |(w : ℚ) / (h : ℚ) - (n : ℚ) / (box : ℚ)|)).toNat, box)
  else
    (box, (roundAspect ((box : ℚ) / ((w : ℚ) / (h : ℚ)))
        (fun n => if n = 0 then 0
          else |(w : ℚ) / (h : ℚ) - (box : ℚ) / (n : ℚ)|)).toNat)

/-- img.convert("RGBA") on an RGB pixel: alpha becomes 255. -/
def toRGBApix (p : Nat × Nat × Nat) : Nat × Nat × Nat × Nat :=
  (p.1, p.2.1, p.2.2, 255)

/-- img.convert("RGBA") on the rendered RGB pixel grid (rows of
pixels). -/
def toRGBA (img : List (List (Nat × Nat × Nat))) :
    List (List (Nat × Nat × Nat × Nat)) :=
  img.map (fun row => row.map toRGBApix)

/-- The per-pixel body of the transparency loop (lines 624-628): a pixel
whose R, G and B all exceed 240 gets alpha 0, any other pixel is left
unchanged. -/
def transparentize (px : Nat × Nat × Nat × Nat) : Nat × Nat × Nat × Nat :=
  if 240 < px.1 ∧ 240 < px.2.1 ∧ 240 < px.2.2.1 then
    (px.1, px.2.1, px.2.2.1, 0)
  else px

/-- The whole transparency pass over the pixel grid. -/
def transparentizeImage (img : List (List (Nat × Nat × Nat × Nat))) :
    List (List (Nat × Nat × Nat × Nat)) :=
  img.map (fun row => row.map transparentize)

/-- Pixel access pixels[x, y] on a grid stored as rows. -/
def pixAt {α : Type} (img : List (List α)) (x y : Nat) : Option α :=
  (img[y]?).bind (fun row => row[x]?)

/-- generate_basic (lines 176-251).  Arguments follow the source
signature; output_dir is the already-resolved directory string and
stamp is the _unique_filename token. -/
def generate_basic (data outputDir : String) (filename : Option String)
    (size border : Nat) (fgColor bgColor errorCorrection outputFormat : String)
    (stamp : String) : List Effect × Except PyError BasicResult :=
  let effects : List Effect := [.mkdirP outputDir]
  let ec := ecOf errorCorrection
  match parseColorE fgColor with
  | .error e => (effects, .error e)
  | .ok fg =>
    match parseColorE bgColor with
    | .error e => (effects, .error e)
    | .ok bg =>
      let savePath := savePathOf outputDir filename "qr_basic" stamp outputFormat
      (effects ++ [.encode data ec size border,
                   .render .square (.solidFill bg fg),
                   .writeFile savePath],
       .ok { saved_path := savePath, data := pyTake 200 data, style := "basic",
             fg_color := fgColor, bg_color := bgColor, size := size,
             border := border, error_correction := pyUpper errorCorrection,
             format := outputFormat })

/-- generate_styled (lines 254-357): background color parsed first, then
module shape validated, then gradient style validated, then the mask
colors parsed (center defaulting to fg_color, edge to "#000088" via
Python or), then encode, render, save. -/
def generate_styled (data outputDir : String) (filename : Option String)
    (size border : Nat) (moduleShape fgColor bgColor gradientStyle : String)
    (gradientCenterColor gradientEdgeColor : Option String)
    (errorCorrection outputFormat stamp : String) :
    List Effect × Except PyError StyledResult :=
  let effects : List Effect := [.mkdirP outputDir]
  let ec := ecOf errorCorrection
  match parseColorE bgColor with
  | .error e => (effects, .error e)
  | .ok bg =>
    let shapeKey := pyLower moduleShape
    match lookupShape shapeKey with
    | none => (effects, .error (.valueError (unknownShapeMsg moduleShape)))
    | some drawer =>
      let gradKey := pyLower gradientStyle
      match lookupGradient gradKey with
      | none => (effects, .error (.valueError (unknownGradMsg gradientStyle)))
      | some kind =>
        let maskE : Except PyError ColorMask :=
          if gradKey = "solid" then
            match parseColorE fgColor with
            | .error e => .error e
            | .ok fg => .ok (.solidFill bg fg)
          else
            match parseColorE (pyOrStr gradientCenterColor fgColor) with
            | .error e => .error e
            | .ok center =>
              match parseColorE (pyOrStr gradientEdgeColor "#000088") with
              | .error e => .error e
              | .ok edge =>
                -- The source selects the class from GRADIENT_STYLES and
                -- branches on grad_key for the argument names; the kind
                -- from the dictionary determines the same constructor.
                -- kind = solid is unreachable here (grad_key = "solid"
                -- is handled in the branch above).
                .ok (match kind with
                     | .horizontal => .horizontalGrad bg center edge
                     | .vertical => .verticalGrad bg center edge
                     | .radial => .radialGrad bg center edge
                     | .squareGrad => .squareGrad bg center edge
                     | .solid => .solidFill bg center)
        match maskE with
        | .error e => (effects, .error e)
        | .ok mask =>
          let savePath := savePathOf outputDir filename
            ("qr_" ++ shapeKey ++ "_" ++ gradKey) stamp outputFormat
          (effects ++ [.encode data ec size border, .render drawer mask,
                       .writeFile savePath],
           .ok { saved_path := savePath, data := pyTake 200 data,
                 style := "styled", module_shape := shapeKey,
                 gradient_style := gradKey, fg_color := fgColor,
                 bg_color := bgColor, size := size, border := border,
                 error_correction := pyUpper errorCorrection,
                 format := outputFormat })

/-- generate_with_logo (lines 360-478): directory first, then the logo
file existence check (is_file is an oracle parameter), error correction
forced to H, colors parsed, shape validated, ratio clamped, encode,
render, logo resized with PIL thumbnail (the loaded logo size and the
rendered canvas width are oracle parameters), composite and save.  The
white rounded-rectangle padding and paste steps are pure PIL
compositing on the canvas and are not modelled beyond the resize, which
is the step the claims refer to. -/
def generate_with_logo (data logoPath outputDir : String)
    (filename : Option String) (size border : Nat)
    (moduleShape fgColor bgColor : String) (logoSizeRatio : ℚ)
    (errorCorrection outputFormat stamp : String)
    (logoIsFile : Bool) (logoW logoH qrWidth : Nat) :
    List Effect × Except PyError LogoResult :=
  let effects : List Effect := [.mkdirP outputDir]
  if logoIsFile = false then
    (effects, .error (.fileNotFound ("Logo file not found: " ++ logoPath)))
  else
    -- Force high error correction for logo overlay (line 398); the
    -- error_correction argument is ignored.
    let ec := ERROR_CORRECT_H
    match parseColorE fgColor with
    | .error e => (effects, .error e)
    | .ok fg =>
      match parseColorE bgColor with
      | .error e => (effects, .error e)
      | .ok bg =>
        let shapeKey := pyLower moduleShape
        match lookupShape shapeKey with
        | none => (effects, .error (.valueError (unknownShapeMsg moduleShape)))
        | some drawer =>
          let ratio := clampRatio logoSizeRatio
          let box := logoMax qrWidth ratio
          let resized := thumbnailSize logoW logoH box
          let savePath := savePathOf outputDir filename "qr_logo" stamp outputFormat
          (effects ++ [.encode data ec size border,
                       .render drawer (.solidFill bg fg),
                       .resize resized.1 resized.2,
                       .writeFile savePath],
           .ok { saved_path := savePath, data := pyTake 200 data,
                 style := "logo", logo_path := logoPath,
                 logo_size_ratio := ratio, module_shape := shapeKey,
                 fg_color := fgColor, bg_color := bgColor, size := size,
                 border := border, error_correction := "H",
                 format := outputFormat })

/-- generate_with_background_image (lines 481-563): directory first,
image existence check (oracle parameter), error-correction lookup with
H fallback, shape validated, encode, render with the image color mask
(back color (255, 255, 255)), save.  The brightness argument is
accepted and, as in the source, never used. -/
def generate_with_background_image (data imagePath outputDir : String)
    (filename : Option String) (size border : Nat) (moduleShape : String)
    (brightness : ℚ) (errorCorrection outputFormat stamp : String)
    (imageIsFile : Bool) : List Effect × Except PyError BgImageResult :=
  let effects : List Effect := [.mkdirP outputDir]
  if imageIsFile = false then
    (effects, .error (.fileNotFound ("Image file not found: " ++ imagePath)))
  else
    let ec := ecOf errorCorrection
    let shapeKey := pyLower moduleShape
    match lookupShape shapeKey with
    | none => (effects, .error (.valueError (unknownShapeMsg moduleShape)))
    | some drawer =>
      let savePath := savePathOf outputDir filename "qr_image" stamp outputFormat
      (effects ++ [.encode data ec size border,
                   .render drawer (.imageMask (255, 255, 255) imagePath),
                   .writeFile savePath],
       .ok { saved_path := savePath, data := pyTake 200 data,
             style := "background_image", image_path := imagePath,
             module_shape := shapeKey, size := size, border := border,
             error_correction := pyUpper errorCorrection,
             format := outputFormat })

/-- generate_transparent (lines 566-648): directory first, error
correction with H fallback, foreground color parsed, shape validated,
encode, render on a pure white background (the rendered RGB pixel grid
is an oracle parameter), convert to RGBA, make near-white pixels
transparent, save as PNG (the written RGBA grid is recorded in the
trace). -/
def generate_transparent (data outputDir : String) (filename : Option String)
    (size border : Nat) (moduleShape fgColor errorCorrection stamp : String)
    (rendered : List (List (Nat × Nat × Nat))) :
    List Effect × Except PyError TransparentResult :=
  let effects : List Effect := [.mkdirP outputDir]
  let ec := ecOf errorCorrection
  match parseColorE fgColor with
  | .error e => (effects, .error e)
  | .ok fg =>
    let shapeKey := pyLower moduleShape
    match lookupShape shapeKey with
    | none => (effects, .error (.valueError (unknownShapeMsg moduleShape)))
    | some drawer =>
      let outImg := transparentizeImage (toRGBA rendered)
      let savePath := savePathOf outputDir filename "qr_transparent" stamp "png"
      (effects ++ [.encode data ec size border,
                   .render drawer (.solidFill (255, 255, 255) fg),
                   .writeImg savePath outImg],
       .ok { saved_path := savePath, data := pyTake 200 data,
             style := "transparent", fg_color := fgColor,
             module_shape := shapeKey, size := size, border := border,
             error_correction := pyUpper errorCorrection, format := "png" })

/-- generate_gradient (lines 651-746): directory first, error correction
with H fallback, the three colors parsed (bg, center, edge), shape
validated, gradient key checked against the 4-element valid_gradients
set, encode, render, save. -/
def generate_gradient (data outputDir : String) (filename : Option String)
    (size border : Nat) (moduleShape gradientStyle : String)
    (centerColor edgeColor bgColor : String)
    (errorCorrection outputFormat stamp : String) :
    List Effect × Except PyError GradientResult :=
  let effects : List Effect := [.mkdirP outputDir]
  let ec := ecOf errorCorrection
  match parseColorE bgColor with
  | .error e => (effects, .error e)
  | .ok bg =>
    match parseColorE centerColor with
    | .error e => (effects, .error e)
    | .ok center =>
      match parseColorE edgeColor with
      | .error e => (effects, .error e)
      | .ok edge =>
        let shapeKey := pyLower moduleShape
        match lookupShape shapeKey with
        | none => (effects, .error (.valueError (unknownShapeMsg moduleShape)))
        | some drawer =>
          let gradKey := pyLower gradientStyle
          if gradKey ∈ VALID_GRADIENTS4 then
            let mask : ColorMask :=
              match lookupGradient gradKey with
              | some .horizontal => .horizontalGrad bg center edge
              | some .vertical => .verticalGrad bg center edge
              | some .squareGrad => .squareGrad bg center edge
              | _ => .radialGrad bg center edge
            let savePath := savePathOf outputDir filename
              ("qr_gradient_" ++ gradKey) stamp outputFormat
            (effects ++ [.encode data ec size border, .render drawer mask,
                         .writeFile savePath],
             .ok { saved_path := savePath, data := pyTake 200 data,
                   style := "gradient", gradient_style := gradKey,
                   center_color := centerColor, edge_color := edgeColor,
                   bg_color := bgColor, module_shape := shapeKey,
                   size := size, border := border,
                   error_correction := pyUpper errorCorrection,
                   format := outputFormat })
          else
            (effects, .error (.valueError (unknownGrad4Msg gradientStyle)))


/-- Substring containment on strings, stated over their character
data. -/
def containsStr (s sub : String) : Prop :=
  ∃ p q : List Char, s.data = p ++ sub.data ++ q

/-- Facts about a character that is a valid hex digit: its value is
below 16, its codepoint lies in the hex ranges, and it is none of the
special characters of the int(-, 16) grammar (whitespace, sign,
underscore, base marker, hash). -/
theorem hexDigitVal_facts {c : Char} {a : Nat} (h : hexDigitVal c = some a) :
    a < 16 ∧ 48 ≤ c.toNat ∧ c.toNat ≤ 102 ∧ c.toNat ≠ 95 ∧ c.toNat ≠ 120 ∧
      c.toNat ≠ 88 ∧ c.toNat ≠ 43 ∧ c.toNat ≠ 45 ∧ c.toNat ≠ 35 ∧
      isPyWs c = false := by
  unfold hexDigitVal at h
  split_ifs at h with h1 h2 h3 <;>
    (injection h with h
     refine ⟨by omega, by omega, by omega, by omega, by omega, by omega,
       by omega, by omega, by omega, ?_⟩
     simp only [isPyWs]
     exact decide_eq_false (by omega))

/-- A hex digit is not whitespace. -/
theorem hex_not_ws {c : Char} {a : Nat} (h : hexDigitVal c = some a) :
    isPyWs c = false :=
  (hexDigitVal_facts h).2.2.2.2.2.2.2.2.2

/-- A hex digit is not the hash character. -/
theorem hex_not_hash {c : Char} {a : Nat} (h : hexDigitVal c = some a) :
    (c.toNat == 35) = false := by
  have := (hexDigitVal_facts h).2.2.2.2.2.2.2.2.1
  simp [this]

/-- dropWhile is the identity when no element satisfies the predicate. -/
theorem dropWhile_eq_self_of_none {α : Type} (p : α → Bool) (l : List α)
    (h : ∀ c ∈ l, p c = false) : l.dropWhile p = l := by
  cases l with
  | nil => rfl
  | cons a t => simp [List.dropWhile, h a (by simp)]

/-- dropWhile drops a head that satisfies the predicate. -/
theorem dropWhile_cons_true {α : Type} (p : α → Bool) (a : α) (l : List α)
    (h : p a = true) : (a :: l).dropWhile p = l.dropWhile p := by
  simp [List.dropWhile, h]

/-- str.strip() is the identity on a string with no whitespace at
either end (in particular with no whitespace at all). -/
theorem pyStripWs_eq_self (l : List Char) (h : ∀ c ∈ l, isPyWs c = false) :
    pyStripWs l = l := by
  unfold pyStripWs
  rw [dropWhile_eq_self_of_none _ _ h,
      dropWhile_eq_self_of_none _ _ (by intro c hc; exact h c (by simpa using hc)),
      List.reverse_reverse]

/-- int(-, 16) on a 2-character slice of hex digits is their value. -/
theorem pyIntHex_pair_hex {c d : Char} {a b : Nat}
    (hc : hexDigitVal c = some a) (hd : hexDigitVal d = some b) :
    pyIntHex [c, d] = some ((16 * a + b : Nat) : Int) := by
  obtain ⟨-, -, -, -, hc120, hc88, hc43, hc45, -, hcws⟩ := hexDigitVal_facts hc
  obtain ⟨-, -, -, hd95, hd120, hd88, -, -, -, hdws⟩ := hexDigitVal_facts hd
  have e1 : pyIntHexCore [c, d] = (hexAfterSign [c, d]).map (fun n => (n : Int)) := by
    simp only [pyIntHexCore]
    rw [if_neg (by omega), if_neg (by omega)]
  have e2 : hexAfterSign [c, d] = hexBody [c, d] := by
    simp only [hexAfterSign]
    rw [if_neg (by omega)]
  have e3 : hexBody [c, d] = hexTail a [d] := by
    simp only [hexBody, hc, Option.some_bind]
  have e4 : hexTail a [d] = some (16 * a + b) := by
    simp only [hexTail]
    rw [if_neg (by omega)]
    simp only [hd, Option.some_bind, hexTail]
  unfold pyIntHex
  rw [pyStripWs_eq_self _ (by
    intro x hx
    simp only [List.mem_cons, List.not_mem_nil, or_false] at hx
    rcases hx with rfl | rfl <;> assumption), e1, e2, e3, e4]
  rfl

/-- colorDigits on a 6-hex-digit list (optionally hash-prefixed) is the
digit list itself: stripping and expansion do not fire. -/
theorem colorDigits_hex6 {c0 c1 c2 c3 c4 c5 : Char}
    {a0 a1 a2 a3 a4 a5 : Nat}
    (h0 : hexDigitVal c0 = some a0) (h1 : hexDigitVal c1 = some a1)
    (h2 : hexDigitVal c2 = some a2) (h3 : hexDigitVal c3 = some a3)
    (h4 : hexDigitVal c4 = some a4) (h5 : hexDigitVal c5 = some a5) :
    colorDigits (String.mk [c0, c1, c2, c3, c4, c5]) = [c0, c1, c2, c3, c4, c5] ∧
      colorDigits (String.mk ['#', c0, c1, c2, c3, c4, c5]) = [c0, c1, c2, c3, c4, c5] := by
  have hmem : ∀ x ∈ [c0, c1, c2, c3, c4, c5], isPyWs x = false := by
    intro x hx
    simp only [List.mem_cons, List.not_mem_nil, or_false] at hx
    rcases hx with rfl | rfl | rfl | rfl | rfl | rfl
    exacts [hex_not_ws h0, hex_not_ws h1, hex_not_ws h2, hex_not_ws h3,
      hex_not_ws h4, hex_not_ws h5]
  have hmem2 : ∀ x ∈ '#' :: [c0, c1, c2, c3, c4, c5], isPyWs x = false := by
    intro x hx
    simp only [List.mem_cons] at hx
    rcases hx with rfl | hx
    · decide
    · exact hmem x (by simpa using hx)
  have hnh : ∀ x ∈ [c0, c1, c2, c3, c4, c5], (x.toNat == 35) = false := by
    intro x hx
    simp only [List.mem_cons, List.not_mem_nil, or_false] at hx
    rcases hx with rfl | rfl | rfl | rfl | rfl | rfl
    exacts [hex_not_hash h0, hex_not_hash h1, hex_not_hash h2, hex_not_hash h3,
      hex_not_hash h4, hex_not_hash h5]
  have s1 : strippedColor (String.mk [c0, c1, c2, c3, c4, c5]) =
      [c0, c1, c2, c3, c4, c5] := by
    unfold strippedColor
    rw [show (String.mk [c0, c1, c2, c3, c4, c5]).data =
      [c0, c1, c2, c3, c4, c5] from rfl]
    rw [pyStripWs_eq_self _ hmem, dropWhile_eq_self_of_none _ _ hnh]
  have s2 : strippedColor (String.mk ['#', c0, c1, c2, c3, c4, c5]) =
      [c0, c1, c2, c3, c4, c5] := by
    unfold strippedColor
    rw [show (String.mk ['#', c0, c1, c2, c3, c4, c5]).data =
      '#' :: [c0, c1, c2, c3, c4, c5] from rfl]
    rw [pyStripWs_eq_self _ hmem2,
        dropWhile_cons_true _ _ _ (by decide),
        dropWhile_eq_self_of_none _ _ hnh]
  constructor
  · unfold colorDigits
    rw [s1]
    rfl
  · unfold colorDigits
    rw [s2]
    rfl

/-- parseColorE on a 6-hex-digit character list, with and without a
leading hash: the three pairs are hex-decoded. -/
theorem parseColorE_hex6 {c0 c1 c2 c3 c4 c5 : Char}
    {a0 a1 a2 a3 a4 a5 : Nat}
    (h0 : hexDigitVal c0 = some a0) (h1 : hexDigitVal c1 = some a1)
    (h2 : hexDigitVal c2 = some a2) (h3 : hexDigitVal c3 = some a3)
    (h4 : hexDigitVal c4 = some a4) (h5 : hexDigitVal c5 = some a5) :
    parseColorE (String.mk [c0, c1, c2, c3, c4, c5]) =
      .ok (((16 * a0 + a1 : Nat) : Int), ((16 * a2 + a3 : Nat) : Int),
           ((16 * a4 + a5 : Nat) : Int)) ∧
    parseColorE (String.mk ['#', c0, c1, c2, c3, c4, c5]) =
      .ok (((16 * a0 + a1 : Nat) : Int), ((16 * a2 + a3 : Nat) : Int),
           ((16 * a4 + a5 : Nat) : Int)) := by
  obtain ⟨d1, d2⟩ := colorDigits_hex6 h0 h1 h2 h3 h4 h5
  have core : ∀ s : String, colorDigits s = [c0, c1, c2, c3, c4, c5] →
      parseColorE s =
        .ok (((16 * a0 + a1 : Nat) : Int), ((16 * a2 + a3 : Nat) : Int),
             ((16 * a4 + a5 : Nat) : Int)) := by
    intro s hs
    unfold parseColorE
    rw [hs]
    rw [if_neg (by simp)]
    rw [show ([c0, c1, c2, c3, c4, c5].take 2) = [c0, c1] from rfl,
        show (([c0, c1, c2, c3, c4, c5].drop 2).take 2) = [c2, c3] from rfl,
        show ([c0, c1, c2, c3, c4, c5].drop 4) = [c4, c5] from rfl]
    rw [pyIntHex_pair_hex h0 h1, pyIntHex_pair_hex h2 h3, pyIntHex_pair_hex h4 h5]
  exact ⟨core _ d1, core _ d2⟩

/-- strippedColor is the identity on a list with no whitespace and no
leading hash characters. -/
theorem strippedColor_plain (l : List Char)
    (hws : ∀ x ∈ l, isPyWs x = false)
    (hnh : ∀ x ∈ l, (x.toNat == 35) = false) :
    strippedColor (String.mk l) = l := by
  unfold strippedColor
  rw [show (String.mk l).data = l from rfl, pyStripWs_eq_self _ hws,
      dropWhile_eq_self_of_none _ _ hnh]

/-- C4: for every valid 6-hex-digit color string, optionally prefixed
with a hash, the color parser returns the 3-tuple of integers in
[0, 255] obtained by hex-decoding the three consecutive digit pairs. -/
theorem c4_parse_color_hex6 (c0 c1 c2 c3 c4 c5 : Char)
    (a0 a1 a2 a3 a4 a5 : Nat)
    (h0 : hexDigitVal c0 = some a0) (h1 : hexDigitVal c1 = some a1)
    (h2 : hexDigitVal c2 = some a2) (h3 : hexDigitVal c3 = some a3)
    (h4 : hexDigitVal c4 = some a4) (h5 : hexDigitVal c5 = some a5) :
    (parseColorE (String.mk [c0, c1, c2, c3, c4, c5]) =
        .ok (((16 * a0 + a1 : Nat) : Int), ((16 * a2 + a3 : Nat) : Int),
             ((16 * a4 + a5 : Nat) : Int)) ∧
      parseColorE (String.mk ['#', c0, c1, c2, c3, c4, c5]) =
        .ok (((16 * a0 + a1 : Nat) : Int), ((16 * a2 + a3 : Nat) : Int),
             ((16 * a4 + a5 : Nat) : Int))) ∧
    (0 ≤ ((16 * a0 + a1 : Nat) : Int) ∧ ((16 * a0 + a1 : Nat) : Int) ≤ 255) ∧
    (0 ≤ ((16 * a2 + a3 : Nat) : Int) ∧ ((16 * a2 + a3 : Nat) : Int) ≤ 255) ∧
    (0 ≤ ((16 * a4 + a5 : Nat) : Int) ∧ ((16 * a4 + a5 : Nat) : Int) ≤ 255) := by
  have b0 := (hexDigitVal_facts h0).1
  have b1 := (hexDigitVal_facts h1).1
  have b2 := (hexDigitVal_facts h2).1
  have b3 := (hexDigitVal_facts h3).1
  have b4 := (hexDigitVal_facts h4).1
  have b5 := (hexDigitVal_facts h5).1
  refine ⟨parseColorE_hex6 h0 h1 h2 h3 h4 h5, ⟨by omega, by omega⟩,
    ⟨by omega, by omega⟩, ⟨by omega, by omega⟩⟩

/-- Witness for C4 at the concrete color 1A2b3F, with and without the
hash. -/
theorem c4_parse_color_hex6_witness :
    (parseColorE (String.mk ['1', 'A', '2', 'b', '3', 'F']) =
        .ok (26, 43, 63) ∧
      parseColorE (String.mk ['#', '1', 'A', '2', 'b', '3', 'F']) =
        .ok (26, 43, 63)) ∧
    (0 ≤ (26 : Int) ∧ (26 : Int) ≤ 255) ∧
    (0 ≤ (43 : Int) ∧ (43 : Int) ≤ 255) ∧
    (0 ≤ (63 : Int) ∧ (63 : Int) ≤ 255) :=
  c4_parse_color_hex6 '1' 'A' '2' 'b' '3' 'F' 1 10 2 11 3 15
    (by decide) (by decide) (by decide) (by decide) (by decide) (by decide)

/-- C5: for every valid 3-hex-digit color string, the parser returns the
same triple as for the 6-digit string obtained by duplicating each
digit. -/
theorem c5_shorthand_expand (c0 c1 c2 : Char) (a0 a1 a2 : Nat)
    (h0 : hexDigitVal c0 = some a0) (h1 : hexDigitVal c1 = some a1)
    (h2 : hexDigitVal c2 = some a2) :
    parseColorE (String.mk [c0, c1, c2]) =
      parseColorE (String.mk [c0, c0, c1, c1, c2, c2]) := by
  have hs3 : strippedColor (String.mk [c0, c1, c2]) = [c0, c1, c2] := by
    apply strippedColor_plain
    · intro x hx
      simp only [List.mem_cons, List.not_mem_nil, or_false] at hx
      rcases hx with rfl | rfl | rfl
      exacts [hex_not_ws h0, hex_not_ws h1, hex_not_ws h2]
    · intro x hx
      simp only [List.mem_cons, List.not_mem_nil, or_false] at hx
      rcases hx with rfl | rfl | rfl
      exacts [hex_not_hash h0, hex_not_hash h1, hex_not_hash h2]
  have hcd : colorDigits (String.mk [c0, c1, c2]) =
      colorDigits (String.mk [c0, c0, c1, c1, c2, c2]) := by
    rw [(colorDigits_hex6 h0 h0 h1 h1 h2 h2).1]
    unfold colorDigits
    rw [hs3]
    rfl
  unfold parseColorE
  rw [hcd]

/-- Witness for C5 at the concrete shorthand F00. -/
theorem c5_shorthand_expand_witness :
    parseColorE (String.mk ['F', '0', '0']) =
      parseColorE (String.mk ['F', 'F', '0', '0', '0', '0']) :=
  c5_shorthand_expand 'F' '0' '0' 15 0 0 (by decide) (by decide) (by decide)

/-- An unknown error-correction key falls back to ERROR_CORRECT_H. -/
theorem ecOf_unknown {k : String} (hk : lookupEC (pyUpper k) = none) :
    ecOf k = ERROR_CORRECT_H := by
  unfold ecOf
  rw [hk]
  rfl

/-- C1 (amended): for every error-correction key whose uppercase form is
not in ERROR_CORRECTION_LEVELS, no generation operation fails; the
effective level silently falls back to ERROR_CORRECT_H, the symbol is
encoded with that level, and the result record echoes the uppercased
caller key.  The claimed UnsupportedStyleOption failure does not exist
in the code.  (All other arguments are fixed to valid values; the five
operations that read the caller level are covered, generate_with_logo
ignores it entirely.) -/
theorem c1_amended_silent_fallback (k : String)
    (hk : lookupEC (pyUpper k) = none) :
    ecOf k = ERROR_CORRECT_H ∧
    (∀ data outputDir stamp : String,
      generate_basic data outputDir none 10 2 "#000000" "#FFFFFF" k "png" stamp =
        ([.mkdirP outputDir,
          .encode data ERROR_CORRECT_H 10 2,
          .render .square (.solidFill (255, 255, 255) (0, 0, 0)),
          .writeFile (savePathOf outputDir none "qr_basic" stamp "png")],
         .ok { saved_path := savePathOf outputDir none "qr_basic" stamp "png",
               data := pyTake 200 data, style := "basic",
               fg_color := "#000000", bg_color := "#FFFFFF", size := 10,
               border := 2, error_correction := pyUpper k, format := "png" })) ∧
    (∀ data outputDir stamp : String,
      generate_styled data outputDir none 10 2 "square" "#000000" "#FFFFFF"
          "solid" none none k "png" stamp =
        ([.mkdirP outputDir,
          .encode data ERROR_CORRECT_H 10 2,
          .render .square (.solidFill (255, 255, 255) (0, 0, 0)),
          .writeFile (savePathOf outputDir none "qr_square_solid" stamp "png")],
         .ok { saved_path := savePathOf outputDir none "qr_square_solid" stamp "png",
               data := pyTake 200 data, style := "styled",
               module_shape := "square", gradient_style := "solid",
               fg_color := "#000000", bg_color := "#FFFFFF", size := 10,
               border := 2, error_correction := pyUpper k, format := "png" })) ∧
    (∀ data outputDir stamp : String,
      generate_with_background_image data "img.png" outputDir none 10 2
          "circle" (3/2) k "png" stamp true =
        ([.mkdirP outputDir,
          .encode data ERROR_CORRECT_H 10 2,
          .render .circle (.imageMask (255, 255, 255) "img.png"),
          .writeFile (savePathOf outputDir none "qr_image" stamp "png")],
         .ok { saved_path := savePathOf outputDir none "qr_image" stamp "png",
               data := pyTake 200 data, style := "background_image",
               image_path := "img.png", module_shape := "circle", size := 10,
               border := 2, error_correction := pyUpper k, format := "png" })) ∧
    (∀ (data outputDir stamp : String)
        (rendered : List (List (Nat × Nat × Nat))),
      generate_transparent data outputDir none 10 2 "square" "#000000" k
          stamp rendered =
        ([.mkdirP outputDir,
          .encode data ERROR_CORRECT_H 10 2,
          .render .square (.solidFill (255, 255, 255) (0, 0, 0)),
          .writeImg (savePathOf outputDir none "qr_transparent" stamp "png")
            (transparentizeImage (toRGBA rendered))],
         .ok { saved_path := savePathOf outputDir none "qr_transparent" stamp "png",
               data := pyTake 200 data, style := "transparent",
               fg_color := "#000000", module_shape := "square", size := 10,
               border := 2, error_correction := pyUpper k, format := "png" })) ∧
    (∀ data outputDir stamp : String,
      generate_gradient data outputDir none 10 2 "square" "radial" "#FF0000"
          "#0000FF" "#FFFFFF" k "png" stamp =
        ([.mkdirP outputDir,
          .encode data ERROR_CORRECT_H 10 2,
          .render .square (.radialGrad (255, 255, 255) (255, 0, 0) (0, 0, 255)),
          .writeFile (savePathOf outputDir none "qr_gradient_radial" stamp "png")],
         .ok { saved_path := savePathOf outputDir none "qr_gradient_radial" stamp "png",
               data := pyTake 200 data, style := "gradient",
               gradient_style := "radial", center_color := "#FF0000",
               edge_color := "#0000FF", bg_color := "#FFFFFF",
               module_shape := "square", size := 10, border := 2,
               error_correction := pyUpper k, format := "png" })) := by
  have hec := ecOf_unknown hk
  have hblack : parseColorE "#000000" = Except.ok ((0 : Int), (0 : Int), (0 : Int)) := by
    decide
  have hwhite : parseColorE "#FFFFFF" = Except.ok ((255 : Int), (255 : Int), (255 : Int)) := by
    decide
  have hred : parseColorE "#FF0000" = Except.ok ((255 : Int), (0 : Int), (0 : Int)) := by
    decide
  have hblue : parseColorE "#0000FF" = Except.ok ((0 : Int), (0 : Int), (255 : Int)) := by
    decide
  have hsq : pyLower "square" = "square" := by decide
  have hci : pyLower "circle" = "circle" := by decide
  have hso : pyLower "solid" = "solid" := by decide
  have hra : pyLower "radial" = "radial" := by decide
  have hlsq : lookupShape "square" = some ModuleDrawer.square := by decide
  have hlci : lookupShape "circle" = some ModuleDrawer.circle := by decide
  have hlso : lookupGradient "solid" = some GradKind.solid := by decide
  have hlra : lookupGradient "radial" = some GradKind.radial := by decide
  refine ⟨hec, ?_, ?_, ?_, ?_, ?_⟩
  · intro data outputDir stamp
    simp [generate_basic, hec, hblack, hwhite]
  · intro data outputDir stamp
    simp [generate_styled, hec, hblack, hwhite, hsq, hso, hlsq, hlso]
  · intro data outputDir stamp
    simp [generate_with_background_image, hec, hci, hlci]
  · intro data outputDir stamp rendered
    simp [generate_transparent, hec, hblack, hsq, hlsq]
  · intro data outputDir stamp
    simp [generate_gradient, hec, hwhite, hred, hblue, hsq, hra, hlsq, hlra,
      VALID_GRADIENTS4]

/-- Witness for the amended C1 at the concrete unknown key Z. -/
theorem c1_amended_silent_fallback_witness :
    ecOf "Z" = ERROR_CORRECT_H :=
  (c1_amended_silent_fallback "Z" (by decide)).1

/-- C1 counterexample: generate_basic called with the unknown
error-correction key X succeeds (no error of any kind is raised) and
encodes with the substituted level ERROR_CORRECT_H, refuting the
claimed UnsupportedStyleOption failure. -/
theorem c1_counterexample :
    exceptIsOk
        (generate_basic "hello" "/out" none 10 2 "#000000" "#FFFFFF" "X"
          "png" "s1").2 = true ∧
    (generate_basic "hello" "/out" none 10 2 "#000000" "#FFFFFF" "X"
        "png" "s1").1 =
      [.mkdirP "/out", .encode "hello" ERROR_CORRECT_H 10 2,
       .render .square (.solidFill (255, 255, 255) (0, 0, 0)),
       .writeFile "/out/qr_basic_s1.png"] := by
  constructor
  · decide
  · decide

/-- C2: for every call to generate_with_logo, whatever error-correction
level the caller supplies, every QR encoding the call performs uses
ERROR_CORRECT_H, and any returned result record has
error_correction = "H". -/
theorem c2_logo_forces_H (data logoPath outputDir : String)
    (filename : Option String) (size border : Nat)
    (moduleShape fgColor bgColor : String) (ratio : ℚ)
    (errorCorrection outputFormat stamp : String) (logoIsFile : Bool)
    (logoW logoH qrWidth : Nat) :
    (∀ d e s b, Effect.encode d e s b ∈
        (generate_with_logo data logoPath outputDir filename size border
          moduleShape fgColor bgColor ratio errorCorrection outputFormat
          stamp logoIsFile logoW logoH qrWidth).1 → e = ERROR_CORRECT_H) ∧
    (∀ r, (generate_with_logo data logoPath outputDir filename size border
          moduleShape fgColor bgColor ratio errorCorrection outputFormat
          stamp logoIsFile logoW logoH qrWidth).2 = .ok r →
        r.error_correction = "H") := by
  constructor
  · intro d e s b hmem
    unfold generate_with_logo at hmem
    by_cases hf : logoIsFile = false
    · simp [hf] at hmem
    · rw [if_neg hf] at hmem
      cases hfg : parseColorE fgColor with
      | error e2 => simp [hfg] at hmem
      | ok fg =>
        cases hbg : parseColorE bgColor with
        | error e2 => simp [hfg, hbg] at hmem
        | ok bg =>
          cases hls : lookupShape (pyLower moduleShape) with
          | none => simp [hfg, hbg, hls] at hmem
          | some drawer =>
            simp [hfg, hbg, hls] at hmem
            exact hmem.2.1
  · intro r hr
    unfold generate_with_logo at hr
    by_cases hf : logoIsFile = false
    · simp [hf] at hr
    · rw [if_neg hf] at hr
      cases hfg : parseColorE fgColor with
      | error e2 => simp [hfg] at hr
      | ok fg =>
        cases hbg : parseColorE bgColor with
        | error e2 => simp [hfg, hbg] at hr
        | ok bg =>
          cases hls : lookupShape (pyLower moduleShape) with
          | none => simp [hfg, hbg, hls] at hr
          | some drawer =>
            simp [hfg, hbg, hls] at hr
            subst hr
            rfl

/-- Witness for C2: the concrete encode effect of a successful logo call
carries level 2 = ERROR_CORRECT_H. -/
theorem c2_logo_forces_H_witness : (2 : Nat) = ERROR_CORRECT_H :=
  (c2_logo_forces_H "d" "l.png" "/o" none 10 2 "square" "#000000" "#FFFFFF"
      (3/10) "L" "png" "s" true 20 20 290).1 "d" 2 10 2 (by
    simp [generate_with_logo, ERROR_CORRECT_H,
      show parseColorE "#000000" = Except.ok ((0 : Int), (0 : Int), (0 : Int))
        from by decide,
      show parseColorE "#FFFFFF" = Except.ok ((255 : Int), (255 : Int), (255 : Int))
        from by decide,
      show pyLower "square" = "square" from by decide,
      show lookupShape "square" = some ModuleDrawer.square from by decide])

/-- Pixel access commutes with a per-pixel map over the grid. -/
theorem pixAt_map {α β : Type} (f : α → β) (img : List (List α)) (x y : Nat) :
    pixAt (img.map (fun row => row.map f)) x y = (pixAt img x y).map f := by
  unfold pixAt
  rw [List.getElem?_map]
  cases img[y]? with
  | none => rfl
  | some row => simp [List.getElem?_map]

/-- C3: the image written by generate_transparent is the per-pixel
transparency transform of the white-background render: every pixel
whose R, G and B channels each exceed 240 has alpha 0, every other
pixel has alpha 255 (the RGBA conversion gives every pixel alpha 255
first), and the output pixel at a position depends only on the input
pixel at that position. -/
theorem c3_transparent_alpha (data outputDir stamp : String)
    (size border : Nat) (img img2 : List (List (Nat × Nat × Nat))) :
    Effect.writeImg (savePathOf outputDir none "qr_transparent" stamp "png")
        (transparentizeImage (toRGBA img)) ∈
      (generate_transparent data outputDir none size border "square" "#000000"
        "H" stamp img).1 ∧
    (∀ x y r g b, pixAt img x y = some (r, g, b) →
      pixAt (transparentizeImage (toRGBA img)) x y =
        some (r, g, b, if 240 < r ∧ 240 < g ∧ 240 < b then 0 else 255)) ∧
    (∀ x y, pixAt img x y = pixAt img2 x y →
      pixAt (transparentizeImage (toRGBA img)) x y =
        pixAt (transparentizeImage (toRGBA img2)) x y) := by
  have hrw : ∀ im : List (List (Nat × Nat × Nat)), transparentizeImage (toRGBA im) =
      (im.map (fun row => row.map toRGBApix)).map
        (fun row => row.map transparentize) := fun _ => rfl
  refine ⟨?_, ?_, ?_⟩
  · simp [generate_transparent,
      show parseColorE "#000000" = Except.ok ((0 : Int), (0 : Int), (0 : Int))
        from by decide,
      show pyLower "square" = "square" from by decide,
      show lookupShape "square" = some ModuleDrawer.square from by decide]
  · intro x y r g b h
    rw [hrw, pixAt_map, pixAt_map, h]
    by_cases hc : 240 < r ∧ 240 < g ∧ 240 < b
    · simp [toRGBApix, transparentize, hc]
    · simp [toRGBApix, transparentize, hc]
  · intro x y h
    rw [hrw, hrw, pixAt_map, pixAt_map, pixAt_map, pixAt_map, h]

/-- Witness for C3: on a concrete 1 x 2 render, the white pixel becomes
fully transparent. -/
theorem c3_transparent_alpha_witness :
    pixAt (transparentizeImage (toRGBA [[(255, 255, 255), (10, 10, 10)]])) 0 0 =
      some (255, 255, 255, 0) := by
  have h := (c3_transparent_alpha "d" "/o" "s" 10 2
    [[(255, 255, 255), (10, 10, 10)]] []).2.1 0 0 255 255 255 (by decide)
  simpa using h

/-- String append is associative. -/
theorem strAppend_assoc (a b c : String) : (a ++ b) ++ c = a ++ (b ++ c) := by
  cases a
  cases b
  cases c
  exact congrArg String.mk (List.append_assoc _ _ _)

/-- Data of a triple append. -/
theorem strData_append3 (a k S : String) :
    (a ++ k ++ S).data = a.data ++ k.data ++ S.data := by
  cases a
  cases k
  cases S
  rfl

/-- A message of the shape prefix ++ key ++ suffix contains any string
that the concrete suffix visibly contains. -/
theorem containsStr_build (a k S A v B : String)
    (hS : S.data = A.data ++ v.data ++ B.data) :
    containsStr (a ++ k ++ S) v := by
  refine ⟨a.data ++ k.data ++ A.data, B.data, ?_⟩
  rw [strData_append3, hS]
  simp [List.append_assoc]

/-- The unknown module_shape message contains every valid shape key. -/
theorem unknownShapeMsg_contains (k : String) :
    ∀ v ∈ MODULE_SHAPE_KEYS, containsStr (unknownShapeMsg k) v := by
  intro v hv
  have e : unknownShapeMsg k = "Unknown module_shape \x27" ++ k ++
      ("\x27. Choose from: " ++ String.intercalate ", " MODULE_SHAPE_KEYS) := by
    unfold unknownShapeMsg
    rw [strAppend_assoc]
  rw [e]
  simp only [ MODULE_SHAPE_KEYS, MODULE_SHAPES, List.map_cons, List.map_nil,
    List.mem_cons, List.not_mem_nil, or_false] at hv
  rcases hv with rfl | rfl | rfl | rfl | rfl | rfl
  · exact containsStr_build _ _ _ "\x27. Choose from: " _
      ", gapped, circle, rounded, vertical_bars, horizontal_bars" (by decide)
  · exact containsStr_build _ _ _ "\x27. Choose from: square, " _
      ", circle, rounded, vertical_bars, horizontal_bars" (by decide)
  · exact containsStr_build _ _ _ "\x27. Choose from: square, gapped, " _
      ", rounded, vertical_bars, horizontal_bars" (by decide)
  · exact containsStr_build _ _ _ "\x27. Choose from: square, gapped, circle, " _
      ", vertical_bars, horizontal_bars" (by decide)
  · exact containsStr_build _ _ _ "\x27. Choose from: square, gapped, circle, rounded, " _
      ", horizontal_bars" (by decide)
  · exact containsStr_build _ _ _
      "\x27. Choose from: square, gapped, circle, rounded, vertical_bars, " _
      "" (by decide)

/-- The unknown gradient_style message of generate_styled contains every
valid gradient key. -/
theorem unknownGradMsg_contains (k : String) :
    ∀ v ∈ GRADIENT_STYLE_KEYS, containsStr (unknownGradMsg k) v := by
  intro v hv
  have e : unknownGradMsg k = "Unknown gradient_style \x27" ++ k ++
      ("\x27. Choose from: " ++ String.intercalate ", " GRADIENT_STYLE_KEYS) := by
    unfold unknownGradMsg
    rw [strAppend_assoc]
  rw [e]
  simp only [GRADIENT_STYLE_KEYS, GRADIENT_STYLES, List.map_cons, List.map_nil,
    List.mem_cons, List.not_mem_nil, or_false] at hv
  rcases hv with rfl | rfl | rfl | rfl | rfl
  · exact containsStr_build _ _ _ "\x27. Choose from: " _
      ", radial, square, horizontal, vertical" (by decide)
  · exact containsStr_build _ _ _ "\x27. Choose from: solid, " _
      ", square, horizontal, vertical" (by decide)
  · exact containsStr_build _ _ _ "\x27. Choose from: solid, radial, " _
      ", horizontal, vertical" (by decide)
  · exact containsStr_build _ _ _ "\x27. Choose from: solid, radial, square, " _
      ", vertical" (by decide)
  · exact containsStr_build _ _ _ "\x27. Choose from: solid, radial, square, horizontal, " _
      "" (by decide)

/-- The unknown gradient_style message of generate_gradient contains
every key of its 4-element valid set (whatever iteration order the
Python set has, each key occurs in the joined listing; the model fixes
one order). -/
theorem unknownGrad4Msg_contains (k : String) :
    ∀ v ∈ VALID_GRADIENTS4, containsStr (unknownGrad4Msg k) v := by
  intro v hv
  have e : unknownGrad4Msg k = "Unknown gradient_style \x27" ++ k ++
      ("\x27. Choose from: " ++ String.intercalate ", " VALID_GRADIENTS4) := by
    unfold unknownGrad4Msg
    rw [strAppend_assoc]
  rw [e]
  simp only [VALID_GRADIENTS4, List.mem_cons, List.not_mem_nil, or_false] at hv
  rcases hv with rfl | rfl | rfl | rfl
  · exact containsStr_build _ _ _ "\x27. Choose from: " _
      ", square, horizontal, vertical" (by decide)
  · exact containsStr_build _ _ _ "\x27. Choose from: radial, " _
      ", horizontal, vertical" (by decide)
  · exact containsStr_build _ _ _ "\x27. Choose from: radial, square, " _
      ", vertical" (by decide)
  · exact containsStr_build _ _ _ "\x27. Choose from: radial, square, horizontal, " _
      "" (by decide)

/-- An unknown key for the 5-element gradient catalog is also outside
the 4-element set of generate_gradient. -/
theorem notin4_of_lookupGradient_none {s : String}
    (h : lookupGradient s = none) : s ∉ VALID_GRADIENTS4 := by
  intro hmem
  simp only [VALID_GRADIENTS4, List.mem_cons, List.not_mem_nil, or_false] at hmem
  rcases hmem with rfl | rfl | rfl | rfl
  · exact absurd h (by decide)
  · exact absurd h (by decide)
  · exact absurd h (by decide)
  · exact absurd h (by decide)

/-- C7: for each generation operation taking a module_shape or a
gradient_style key, an unknown key (after lower-casing) makes the
operation fail with the ValueError whose message names the offending
key, and that message contains every valid key of the field (all other
arguments valid).  The 4-element valid set applies to
generate_gradient. -/
theorem c7_unknown_key_message (kShape kGrad : String)
    (hs : lookupShape (pyLower kShape) = none)
    (hg : lookupGradient (pyLower kGrad) = none) :
    ((generate_styled "d" "/o" none 10 2 kShape "#000000" "#FFFFFF" "solid"
        none none "H" "png" "s").2 =
          .error (.valueError (unknownShapeMsg kShape)) ∧
      (generate_styled "d" "/o" none 10 2 "square" "#000000" "#FFFFFF" kGrad
        none none "H" "png" "s").2 =
          .error (.valueError (unknownGradMsg kGrad)) ∧
      (generate_with_logo "d" "l.png" "/o" none 10 2 kShape "#000000"
        "#FFFFFF" (3/10) "H" "png" "s" true 20 20 290).2 =
          .error (.valueError (unknownShapeMsg kShape)) ∧
      (generate_with_background_image "d" "img.png" "/o" none 10 2 kShape
        (3/2) "H" "png" "s" true).2 =
          .error (.valueError (unknownShapeMsg kShape)) ∧
      (generate_transparent "d" "/o" none 10 2 kShape "#000000" "H" "s" []).2 =
          .error (.valueError (unknownShapeMsg kShape)) ∧
      (generate_gradient "d" "/o" none 10 2 kShape "radial" "#FF0000"
        "#0000FF" "#FFFFFF" "H" "png" "s").2 =
          .error (.valueError (unknownShapeMsg kShape)) ∧
      (generate_gradient "d" "/o" none 10 2 "square" kGrad "#FF0000"
        "#0000FF" "#FFFFFF" "H" "png" "s").2 =
          .error (.valueError (unknownGrad4Msg kGrad))) ∧
    (∀ v ∈ MODULE_SHAPE_KEYS, containsStr (unknownShapeMsg kShape) v) ∧
    (∀ v ∈ GRADIENT_STYLE_KEYS, containsStr (unknownGradMsg kGrad) v) ∧
    (∀ v ∈ VALID_GRADIENTS4, containsStr (unknownGrad4Msg kGrad) v) := by
  have hblack : parseColorE "#000000" = Except.ok ((0 : Int), (0 : Int), (0 : Int)) := by
    decide
  have hwhite : parseColorE "#FFFFFF" = Except.ok ((255 : Int), (255 : Int), (255 : Int)) := by
    decide
  have hred : parseColorE "#FF0000" = Except.ok ((255 : Int), (0 : Int), (0 : Int)) := by
    decide
  have hblue : parseColorE "#0000FF" = Except.ok ((0 : Int), (0 : Int), (255 : Int)) := by
    decide
  have hsq : pyLower "square" = "square" := by decide
  have hlsq : lookupShape "square" = some ModuleDrawer.square := by decide
  have h4 := notin4_of_lookupGradient_none hg
  refine ⟨⟨?_, ?_, ?_, ?_, ?_, ?_, ?_⟩,
    unknownShapeMsg_contains kShape, unknownGradMsg_contains kGrad,
    unknownGrad4Msg_contains kGrad⟩
  · simp [generate_styled, hwhite, hs]
  · simp [generate_styled, hwhite, hsq, hlsq, hg]
  · simp [generate_with_logo, hblack, hwhite, hs]
  · simp [generate_with_background_image, hs]
  · simp [generate_transparent, hblack, hs]
  · simp [generate_gradient, hred, hblue, hwhite, hs]
  · simp [generate_gradient, hred, hblue, hwhite, hsq, hlsq, h4]

/-- Witness for C7 at the concrete unknown keys blob and wavy. -/
theorem c7_unknown_key_message_witness :
    (generate_styled "d" "/o" none 10 2 "blob" "#000000" "#FFFFFF" "solid"
        none none "H" "png" "s").2 =
      .error (.valueError (unknownShapeMsg "blob")) ∧
    containsStr (unknownShapeMsg "blob") "circle" ∧
    containsStr (unknownGrad4Msg "wavy") "vertical" :=
  ⟨((c7_unknown_key_message "blob" "wavy" (by decide) (by decide)).1).1,
   (c7_unknown_key_message "blob" "wavy" (by decide) (by decide)).2.1
     "circle" (by decide),
   (c7_unknown_key_message "blob" "wavy" (by decide) (by decide)).2.2.2
     "vertical" (by decide)⟩

/-- C9: generate_gradient restricts the fill mode to the non-solid
kinds: any key outside radial / square / horizontal / vertical (solid
included) fails with exactly the ValueError whose message names the
offending key and lists the four valid keys, and each of the four
non-solid keys is accepted (with otherwise valid arguments). -/
theorem c9_gradient_nonsolid (k : String)
    (hk : pyLower k ∉ VALID_GRADIENTS4) :
    (generate_gradient "d" "/o" none 10 2 "square" k "#FF0000" "#0000FF"
        "#FFFFFF" "H" "png" "s").2 =
      .error (.valueError (unknownGrad4Msg k)) ∧
    (∀ v ∈ VALID_GRADIENTS4, containsStr (unknownGrad4Msg k) v) ∧
    ∀ k2 ∈ VALID_GRADIENTS4,
      exceptIsOk (generate_gradient "d" "/o" none 10 2 "square" k2 "#FF0000"
        "#0000FF" "#FFFFFF" "H" "png" "s").2 = true := by
  refine ⟨?_, unknownGrad4Msg_contains k, ?_⟩
  · simp [generate_gradient, hk,
      show parseColorE "#FF0000" = Except.ok ((255 : Int), (0 : Int), (0 : Int))
        from by decide,
      show parseColorE "#0000FF" = Except.ok ((0 : Int), (0 : Int), (255 : Int))
        from by decide,
      show parseColorE "#FFFFFF" = Except.ok ((255 : Int), (255 : Int), (255 : Int))
        from by decide,
      show pyLower "square" = "square" from by decide,
      show lookupShape "square" = some ModuleDrawer.square from by decide]
  · intro k2 hk2
    simp only [VALID_GRADIENTS4, List.mem_cons, List.not_mem_nil, or_false] at hk2
    rcases hk2 with rfl | rfl | rfl | rfl <;> decide

/-- Witness for C9: solid is rejected with the listing ValueError whose
message contains the key radial, and radial itself is accepted. -/
theorem c9_gradient_nonsolid_witness :
    (generate_gradient "d" "/o" none 10 2 "square" "solid" "#FF0000"
        "#0000FF" "#FFFFFF" "H" "png" "s").2 =
      .error (.valueError (unknownGrad4Msg "solid")) ∧
    containsStr (unknownGrad4Msg "solid") "radial" ∧
    exceptIsOk (generate_gradient "d" "/o" none 10 2 "square" "radial"
        "#FF0000" "#0000FF" "#FFFFFF" "H" "png" "s").2 = true :=
  ⟨(c9_gradient_nonsolid "solid" (by decide)).1,
   (c9_gradient_nonsolid "solid" (by decide)).2.1 "radial" (by decide),
   (c9_gradient_nonsolid "solid" (by decide)).2.2 "radial" (by decide)⟩

/-- C10: every generation operation performs the (recursive, idempotent)
creation of the output directory as its first external action, before
any color, shape or style validation, so a call that fails returns a
trace consisting of exactly the directory creation: the directory has
been created and no file has been written. -/
theorem c10_mkdir_before_validation :
    (∀ data outputDir fn size border fg bg ec fmt stamp,
      exceptIsOk (generate_basic data outputDir fn size border fg bg ec fmt
          stamp).2 = false →
        (generate_basic data outputDir fn size border fg bg ec fmt stamp).1 =
          [Effect.mkdirP outputDir]) ∧
    (∀ data outputDir fn size border shape fg bg grad gcc gec ec fmt stamp,
      exceptIsOk (generate_styled data outputDir fn size border shape fg bg
          grad gcc gec ec fmt stamp).2 = false →
        (generate_styled data outputDir fn size border shape fg bg grad gcc
          gec ec fmt stamp).1 = [Effect.mkdirP outputDir]) ∧
    (∀ data lp outputDir fn size border shape fg bg ratio ec fmt stamp lif
        lw lh qw,
      exceptIsOk (generate_with_logo data lp outputDir fn size border shape
          fg bg ratio ec fmt stamp lif lw lh qw).2 = false →
        (generate_with_logo data lp outputDir fn size border shape fg bg
          ratio ec fmt stamp lif lw lh qw).1 = [Effect.mkdirP outputDir]) ∧
    (∀ data ip outputDir fn size border shape br ec fmt stamp iif,
      exceptIsOk (generate_with_background_image data ip outputDir fn size
          border shape br ec fmt stamp iif).2 = false →
        (generate_with_background_image data ip outputDir fn size border
          shape br ec fmt stamp iif).1 = [Effect.mkdirP outputDir]) ∧
    (∀ data outputDir fn size border shape fg ec stamp rendered,
      exceptIsOk (generate_transparent data outputDir fn size border shape
          fg ec stamp rendered).2 = false →
        (generate_transparent data outputDir fn size border shape fg ec
          stamp rendered).1 = [Effect.mkdirP outputDir]) ∧
    (∀ data outputDir fn size border shape grad cc ecol bg ec fmt stamp,
      exceptIsOk (generate_gradient data outputDir fn size border shape grad
          cc ecol bg ec fmt stamp).2 = false →
        (generate_gradient data outputDir fn size border shape grad cc ecol
          bg ec fmt stamp).1 = [Effect.mkdirP outputDir]) := by
  refine ⟨?_, ?_, ?_, ?_, ?_, ?_⟩
  · intro data outputDir fn size border fg bg ec fmt stamp h
    unfold generate_basic at h ⊢
    cases hfg : parseColorE fg with
    | error e => simp [hfg]
    | ok v1 =>
      cases hbg : parseColorE bg with
      | error e2 => simp [hfg, hbg]
      | ok v2 => simp [hfg, hbg, exceptIsOk] at h
  · intro data outputDir fn size border shape fg bg grad gcc gec ec fmt stamp h
    unfold generate_styled at h ⊢
    cases hbg : parseColorE bg with
    | error e => simp [hbg]
    | ok v =>
      cases hls : lookupShape (pyLower shape) with
      | none => simp [hbg, hls]
      | some dr =>
        cases hlg : lookupGradient (pyLower grad) with
        | none => simp [hbg, hls, hlg]
        | some kind =>
          by_cases hsolid : pyLower grad = "solid"
          · rw [hsolid] at hlg
            cases hfg : parseColorE fg with
            | error e => simp [hbg, hls, hlg, hsolid, hfg]
            | ok v2 => simp [hbg, hls, hlg, hsolid, hfg, exceptIsOk] at h
          · cases hc1 : parseColorE (pyOrStr gcc fg) with
            | error e => simp [hbg, hls, hlg, hsolid, hc1]
            | ok c1 =>
              cases hc2 : parseColorE (pyOrStr gec "#000088") with
              | error e => simp [hbg, hls, hlg, hsolid, hc1, hc2]
              | ok c2 => simp [hbg, hls, hlg, hsolid, hc1, hc2, exceptIsOk] at h
  · intro data lp outputDir fn size border shape fg bg ratio ec fmt stamp lif
      lw lh qw h
    unfold generate_with_logo at h ⊢
    by_cases hf : lif = false
    · simp [hf]
    · rw [if_neg hf] at h ⊢
      cases hfg : parseColorE fg with
      | error e => simp [hfg]
      | ok v1 =>
        cases hbg : parseColorE bg with
        | error e2 => simp [hfg, hbg]
        | ok v2 =>
          cases hls : lookupShape (pyLower shape) with
          | none => simp [hfg, hbg, hls]
          | some dr => simp [hfg, hbg, hls, exceptIsOk] at h
  · intro data ip outputDir fn size border shape br ec fmt stamp iif h
    unfold generate_with_background_image at h ⊢
    by_cases hf : iif = false
    · simp [hf]
    · rw [if_neg hf] at h ⊢
      cases hls : lookupShape (pyLower shape) with
      | none => simp [hls]
      | some dr => simp [hls, exceptIsOk] at h
  · intro data outputDir fn size border shape fg ec stamp rendered h
    unfold generate_transparent at h ⊢
    cases hfg : parseColorE fg with
    | error e => simp [hfg]
    | ok v1 =>
      cases hls : lookupShape (pyLower shape) with
      | none => simp [hfg, hls]
      | some dr => simp [hfg, hls, exceptIsOk] at h
  · intro data outputDir fn size border shape grad cc ecol bg ec fmt stamp h
    unfold generate_gradient at h ⊢
    cases hbg : parseColorE bg with
    | error e => simp [hbg]
    | ok v1 =>
      cases hcc : parseColorE cc with
      | error e => simp [hbg, hcc]
      | ok v2 =>
        cases hec : parseColorE ecol with
        | error e => simp [hbg, hcc, hec]
        | ok v3 =>
          cases hls : lookupShape (pyLower shape) with
          | none => simp [hbg, hcc, hec, hls]
          | some dr =>
            by_cases hmem : pyLower grad ∈ VALID_GRADIENTS4
            · simp [hbg, hcc, hec, hls, hmem, exceptIsOk] at h
            · simp [hbg, hcc, hec, hls, hmem]

/-- Witness for C10: a failing call of each operation leaves exactly the
directory-creation effect. -/
theorem c10_mkdir_before_validation_witness :
    (generate_basic "d" "/o" none 10 2 "zz" "#FFFFFF" "H" "png" "s").1 =
      [Effect.mkdirP "/o"] ∧
    (generate_styled "d" "/o" none 10 2 "blob" "#000000" "#FFFFFF" "solid"
        none none "H" "png" "s").1 = [Effect.mkdirP "/o"] ∧
    (generate_with_logo "d" "l.png" "/o" none 10 2 "square" "#000000"
        "#FFFFFF" (3/10) "H" "png" "s" false 20 20 290).1 =
      [Effect.mkdirP "/o"] ∧
    (generate_with_background_image "d" "i.png" "/o" none 10 2 "square"
        (3/2) "H" "png" "s" false).1 = [Effect.mkdirP "/o"] ∧
    (generate_transparent "d" "/o" none 10 2 "square" "#ggg" "H" "s" []).1 =
      [Effect.mkdirP "/o"] ∧
    (generate_gradient "d" "/o" none 10 2 "square" "solid" "#FF0000"
        "#0000FF" "#FFFFFF" "H" "png" "s").1 = [Effect.mkdirP "/o"] :=
  ⟨c10_mkdir_before_validation.1 "d" "/o" none 10 2 "zz" "#FFFFFF" "H" "png"
      "s" (by decide),
   c10_mkdir_before_validation.2.1 "d" "/o" none 10 2 "blob" "#000000"
      "#FFFFFF" "solid" none none "H" "png" "s" (by decide),
   c10_mkdir_before_validation.2.2.1 "d" "l.png" "/o" none 10 2 "square"
      "#000000" "#FFFFFF" (3/10) "H" "png" "s" false 20 20 290 (by decide),
   c10_mkdir_before_validation.2.2.2.1 "d" "i.png" "/o" none 10 2 "square"
      (3/2) "H" "png" "s" false (by decide),
   c10_mkdir_before_validation.2.2.2.2.1 "d" "/o" none 10 2 "square" "#ggg"
      "H" "s" [] (by decide),
   c10_mkdir_before_validation.2.2.2.2.2 "d" "/o" none 10 2 "square" "solid"
      "#FF0000" "#0000FF" "#FFFFFF" "H" "png" "s" (by decide)⟩

/-- PIL round_aspect never exceeds a positive bound that dominates its
ideal length. -/
theorem roundAspect_le {q : ℚ} (err : Int → ℚ) {n : Nat} (hn : 0 < n)
    (hq : q ≤ (n : ℚ)) : roundAspect q err ≤ (n : ℤ) := by
  unfold roundAspect
  have hceil : ⌈q⌉ ≤ (n : ℤ) := Int.ceil_le.mpr (by exact_mod_cast hq)
  have hfloor : ⌊q⌋ ≤ (n : ℤ) := le_trans (Int.floor_le_ceil q) hceil
  have h1 : (1 : ℤ) ≤ (n : ℤ) := by exact_mod_cast hn
  by_cases hc : err ⌊q⌋ ≤ err ⌈q⌉
  · rw [if_pos hc]
    exact max_le hfloor h1
  · rw [if_neg hc]
    exact max_le hceil h1

/-- The longest side after a PIL thumbnail into a square box of positive
side: the original longest side when the image already fits, the box
side otherwise.  In particular thumbnail never enlarges. -/
theorem thumbnail_longest (w h box : Nat) (hbox : 0 < box) :
    ∀ tw th, thumbnailSize w h box = (tw, th) →
      max tw th = min (max w h) box := by
  intro tw th heq
  unfold thumbnailSize at heq
  by_cases hfit : box ≥ w ∧ box ≥ h
  · rw [if_pos hfit] at heq
    injection heq with h1 h2
    subst h1
    subst h2
    omega
  · rw [if_neg hfit] at heq
    by_cases hasp : (1 : ℚ) ≥ (w : ℚ) / (h : ℚ)
    · rw [if_pos hasp] at heq
      injection heq with h1 h2
      subst h1
      subst h2
      have hq : (box : ℚ) * ((w : ℚ) / (h : ℚ)) ≤ (box : ℚ) :=
        mul_le_of_le_one_right (by positivity) hasp
      have hle : (roundAspect ((box : ℚ) * ((w : ℚ) / (h : ℚ)))
          (fun n => |(w : ℚ) / (h : ℚ) - (n : ℚ) / (box : ℚ)|)).toNat ≤ box :=
        Int.toNat_le.mpr (roundAspect_le _ hbox hq)
      omega
    · rw [if_neg hasp] at heq
      injection heq with h1 h2
      subst h1
      subst h2
      have hq : (box : ℚ) / ((w : ℚ) / (h : ℚ)) ≤ (box : ℚ) :=
        div_le_self (by positivity) (le_of_lt (lt_of_not_ge hasp))
      have hle : (roundAspect ((box : ℚ) / ((w : ℚ) / (h : ℚ)))
          (fun n => if n = 0 then 0
            else |(w : ℚ) / (h : ℚ) - (box : ℚ) / (n : ℚ)|)).toNat ≤ box :=
        Int.toNat_le.mpr (roundAspect_le _ hbox hq)
      omega

/-- The concrete box size of a ratio-0.3 logo call on a 290-pixel
canvas. -/
theorem logoMax_290 : logoMax 290 (clampRatio (3 / 10)) = 87 := by
  have hc : clampRatio (3 / 10) = 3 / 10 := by
    unfold clampRatio
    rw [min_eq_right (by norm_num), max_eq_right (by norm_num)]
  rw [hc]
  unfold logoMax
  rw [show ((290 : Nat) : ℚ) * (3 / 10) = ((87 : Nat) : ℚ) by push_cast; norm_num,
      Int.floor_natCast]
  rfl

/-- C8 (amended): the effective logo ratio is the caller ratio clamped
into [1/10, 2/5]; the logo is resized with PIL thumbnail into the
square box of side floor(canvas_width * ratio), which preserves aspect
ratio but never enlarges: the resized longest side is the minimum of
the original longest side and that box side — not always equal to
ratio * canvas_width as claimed.  (The box side must be positive;
PIL raises a division error on a zero box.) -/
theorem c8_amended_clamp_thumbnail (data logoPath outputDir stamp : String)
    (size border : Nat) (ratio : ℚ) (logoW logoH qrWidth : Nat)
    (hbox : 0 < logoMax qrWidth (clampRatio ratio)) :
    (1 / 10 : ℚ) ≤ clampRatio ratio ∧ clampRatio ratio ≤ 2 / 5 ∧
    Effect.resize
        (thumbnailSize logoW logoH (logoMax qrWidth (clampRatio ratio))).1
        (thumbnailSize logoW logoH (logoMax qrWidth (clampRatio ratio))).2 ∈
      (generate_with_logo data logoPath outputDir none size border "square"
        "#000000" "#FFFFFF" ratio "H" "png" stamp true logoW logoH qrWidth).1 ∧
    max (thumbnailSize logoW logoH (logoMax qrWidth (clampRatio ratio))).1
        (thumbnailSize logoW logoH (logoMax qrWidth (clampRatio ratio))).2 =
      min (max logoW logoH) (logoMax qrWidth (clampRatio ratio)) := by
  refine ⟨le_max_left _ _, max_le (by norm_num) (min_le_left _ _), ?_, ?_⟩
  · simp [generate_with_logo,
      show parseColorE "#000000" = Except.ok ((0 : Int), (0 : Int), (0 : Int))
        from by decide,
      show parseColorE "#FFFFFF" = Except.ok ((255 : Int), (255 : Int), (255 : Int))
        from by decide,
      show pyLower "square" = "square" from by decide,
      show lookupShape "square" = some ModuleDrawer.square from by decide]
  · exact thumbnail_longest logoW logoH _ hbox _ _ rfl

/-- Witness for the amended C8: a 100 x 50 logo on a 290-pixel canvas at
ratio 3/10. -/
theorem c8_amended_clamp_thumbnail_witness :
    (1 / 10 : ℚ) ≤ clampRatio (3 / 10) ∧
    max (thumbnailSize 100 50 (logoMax 290 (clampRatio (3 / 10)))).1
        (thumbnailSize 100 50 (logoMax 290 (clampRatio (3 / 10)))).2 =
      min (max 100 50) (logoMax 290 (clampRatio (3 / 10))) := by
  have h := c8_amended_clamp_thumbnail "d" "l.png" "/o" "s" 10 2 (3 / 10)
    100 50 290 (by rw [logoMax_290]; omega)
  exact ⟨h.1, h.2.2.2⟩

/-- C8 counterexample: with a 10 x 10 logo, a 290-pixel canvas and
caller ratio 3/10, the claim demands a resized longest side of
0.3 * 290 = 87, but PIL thumbnail leaves the already-fitting logo at
10 x 10: the resize effect in the trace is 10 x 10 and 10 is not 87. -/
theorem c8_counterexample :
    clampRatio (3 / 10) = 3 / 10 ∧
    logoMax 290 (clampRatio (3 / 10)) = 87 ∧
    thumbnailSize 10 10 87 = (10, 10) ∧
    Effect.resize 10 10 ∈
      (generate_with_logo "d" "l.png" "/o" none 10 2 "square" "#000000"
        "#FFFFFF" (3 / 10) "H" "png" "s" true 10 10 290).1 ∧
    (10 : Nat) ≠ 87 := by
  have hc : clampRatio (3 / 10) = 3 / 10 := by
    unfold clampRatio
    rw [min_eq_right (by norm_num), max_eq_right (by norm_num)]
  have ht : thumbnailSize 10 10 87 = (10, 10) := by
    unfold thumbnailSize
    rw [if_pos (by omega)]
  refine ⟨hc, logoMax_290, ht, ?_, by omega⟩
  simp [generate_with_logo, logoMax_290, ht,
    show parseColorE "#000000" = Except.ok ((0 : Int), (0 : Int), (0 : Int))
      from by decide,
    show parseColorE "#FFFFFF" = Except.ok ((255 : Int), (255 : Int), (255 : Int))
      from by decide,
    show pyLower "square" = "square" from by decide,
    show lookupShape "square" = some ModuleDrawer.square from by decide]
